import Mathlib

/-!
Verification of the ROV command-and-telemetry link (rov_network.py /
surface_network.py): frame codec, receive-buffer parser, vehicle-side
connection state machine, shore-side connection registry, lock discipline
of broadcast send and shutdown, and startup error handling.

Bytes are modelled as `Nat` values (< 256 on the wire); buffers as
`List Nat`.  Wall-clock time is modelled as `Nat` seconds.
-/

set_option maxHeartbeats 1000000

namespace RovProof

/-- Big-endian unsigned-32 serialization, `struct.pack` with format string
    greater-than-I (rov_network.py:55, surface_network.py:349). -/
def pack_u32_be (n : Nat) : List Nat :=
  [n / 16777216 % 256, n / 65536 % 256, n / 256 % 256, n % 256]

/-- Big-endian unsigned-32 parse of a byte list, `struct.unpack` of the
    4-byte length field (rov_network.py:259, surface_network.py:271). -/
def be_u32 (bs : List Nat) : Nat :=
  bs.foldl (fun acc b => acc * 256 + b) 0

theorem length_pack_u32_be (n : Nat) : (pack_u32_be n).length = 4 := rfl

theorem be_u32_pack_u32_be (n : Nat) (h : n < 4294967296) :
    be_u32 (pack_u32_be n) = n := by
  simp only [pack_u32_be, be_u32, List.foldl]
  omega

/-! ### MD5 (hashlib.md5), executable model

The checksum of every frame is the first 4 bytes of the MD5 digest of the
payload (rov_network.py:50, 269; surface_network.py:281, 348).  This is a
byte-level implementation of RFC 1321 over `List Nat`. -/

/-- Per-round left-rotation amounts of MD5. -/
def md5_s : List Nat :=
  [7, 12, 17, 22, 7, 12, 17, 22, 7, 12, 17, 22, 7, 12, 17, 22,
   5, 9, 14, 20, 5, 9, 14, 20, 5, 9, 14, 20, 5, 9, 14, 20,
   4, 11, 16, 23, 4, 11, 16, 23, 4, 11, 16, 23, 4, 11, 16, 23,
   6, 10, 15, 21, 6, 10, 15, 21, 6, 10, 15, 21, 6, 10, 15, 21]

/-- Per-round additive constants of MD5. -/
def md5_k : List Nat :=
  [0xd76aa478, 0xe8c7b756, 0x242070db, 0xc1bdceee,
   0xf57c0faf, 0x4787c62a, 0xa8304613, 0xfd469501,
   0x698098d8, 0x8b44f7af, 0xffff5bb1, 0x895cd7be,
   0x6b901122, 0xfd987193, 0xa679438e, 0x49b40821,
   0xf61e2562, 0xc040b340, 0x265e5a51, 0xe9b6c7aa,
   0xd62f105d, 0x02441453, 0xd8a1e681, 0xe7d3fbc8,
   0x21e1cde6, 0xc33707d6, 0xf4d50d87, 0x455a14ed,
   0xa9e3e905, 0xfcefa3f8, 0x676f02d9, 0x8d2a4c8a,
   0xfffa3942, 0x8771f681, 0x6d9d6122, 0xfde5380c,
   0xa4beea44, 0x4bdecfa9, 0xf6bb4b60, 0xbebfbc70,
   0x289b7ec6, 0xeaa127fa, 0xd4ef3085, 0x04881d05,
   0xd9d4d039, 0xe6db99e5, 0x1fa27cf8, 0xc4ac5665,
   0xf4292244, 0x432aff97, 0xab9423a7, 0xfc93a039,
   0x655b59c3, 0x8f0ccc92, 0xffeff47d, 0x85845dd1,
   0x6fa87e4f, 0xfe2ce6e0, 0xa3014314, 0x4e0811a1,
   0xf7537e82, 0xbd3af235, 0x2ad7d2bb, 0xeb86d391]

/-- 32-bit left rotation (inputs assumed < 2^32). -/
def rotl32 (x n : Nat) : Nat :=
  ((x <<< n) % 4294967296) ||| (x >>> (32 - n))

/-- MD5 round nonlinear function for round `i` on words `b c d`. -/
def md5_f (i b c d : Nat) : Nat :=
  if i < 16 then (b &&& c) ||| ((b ^^^ 4294967295) &&& d)
  else if i < 32 then (d &&& b) ||| ((d ^^^ 4294967295) &&& c)
  else if i < 48 then b ^^^ c ^^^ d
  else c ^^^ (b ||| (d ^^^ 4294967295))

/-- MD5 message-word index for round `i`. -/
def md5_g (i : Nat) : Nat :=
  if i < 16 then i
  else if i < 32 then (5 * i + 1) % 16
  else if i < 48 then (3 * i + 5) % 16
  else (7 * i) % 16

/-- Little-endian 32-bit word from 4 bytes. -/
def le_word (bs : List Nat) : Nat :=
  match bs with
  | [b0, b1, b2, b3] => b0 + b1 * 256 + b2 * 65536 + b3 * 16777216
  | _ => 0

/-- The sixteen message words of one 64-byte chunk. -/
def md5_words (chunk : List Nat) : List Nat :=
  (List.range 16).map (fun j => le_word ((chunk.drop (4 * j)).take 4))

/-- One MD5 round applied to state `(a, b, c, d)`. -/
def md5_round (M : List Nat) (st : Nat × Nat × Nat × Nat) (i : Nat) :
    Nat × Nat × Nat × Nat :=
  let a := st.1
  let b := st.2.1
  let c := st.2.2.1
  let d := st.2.2.2
  let f := (md5_f i b c d + a + md5_k.getD i 0 + M.getD (md5_g i) 0) % 4294967296
  (d, (b + rotl32 f (md5_s.getD i 0)) % 4294967296, b, c)

/-- Process one 64-byte chunk. -/
def md5_chunk (st : Nat × Nat × Nat × Nat) (chunk : List Nat) :
    Nat × Nat × Nat × Nat :=
  let M := md5_words chunk
  let r := (List.range 64).foldl (md5_round M) st
  ((st.1 + r.1) % 4294967296, (st.2.1 + r.2.1) % 4294967296,
   (st.2.2.1 + r.2.2.1) % 4294967296, (st.2.2.2 + r.2.2.2) % 4294967296)

/-- Little-endian 8-byte serialization of the bit-length field. -/
def le_bytes8 (n : Nat) : List Nat :=
  [n % 256, n / 256 % 256, n / 65536 % 256, n / 16777216 % 256,
   n / 4294967296 % 256, n / 1099511627776 % 256,
   n / 281474976710656 % 256, n / 72057594037927936 % 256]

/-- Little-endian 4-byte serialization of a 32-bit word. -/
def le_bytes4 (n : Nat) : List Nat :=
  [n % 256, n / 256 % 256, n / 65536 % 256, n / 16777216 % 256]

/-- MD5 padding: a 1-bit, zeros to 56 mod 64, then the 64-bit bit length. -/
def md5_pad (msg : List Nat) : List Nat :=
  msg ++ [128] ++ List.replicate ((119 - msg.length % 64) % 64) 0
      ++ le_bytes8 (msg.length * 8)

/-- Split a list into successive 64-byte chunks (the padded message length
    is always a multiple of 64). -/
def chunks64 (bs : List Nat) : List (List Nat) :=
  (List.range ((bs.length + 63) / 64)).map (fun i => (bs.drop (64 * i)).take 64)

/-- The full MD5 digest (16 bytes) of a byte list; model of `hashlib.md5(...).digest()`. -/
def md5 (msg : List Nat) : List Nat :=
  let st := (chunks64 (md5_pad msg)).foldl md5_chunk
      (1732584193, 4023233417, 2562383102, 271733878)
  le_bytes4 st.1 ++ le_bytes4 st.2.1 ++ le_bytes4 st.2.2.1 ++ le_bytes4 st.2.2.2

theorem md5_length (msg : List Nat) : (md5 msg).length = 16 := by
  simp [md5, le_bytes4]

/-! ### Frame codec (rov_network.py:40-60) -/

/-- `MessageFrame`: a framed message with length, checksum, and data
    (rov_network.py:40-45). -/
structure MessageFrame where
  length : Nat
  checksum : List Nat
  data : List Nat
deriving DecidableEq, Repr

/-- `MessageFrame.create` (rov_network.py:47-51): checksum is the first 4
    bytes of the MD5 digest of the data. -/
def MessageFrame.create (data : List Nat) : MessageFrame :=
  { length := data.length, checksum := (md5 data).take 4, data := data }

/-- `MessageFrame.to_bytes` (rov_network.py:53-55): big-endian u32 length,
    then the 4 checksum bytes, then the data. -/
def MessageFrame.to_bytes (f : MessageFrame) : List Nat :=
  pack_u32_be f.length ++ f.checksum ++ f.data

/-- `MessageFrame.validate` (rov_network.py:57-60). -/
def MessageFrame.validate (f : MessageFrame) : Bool :=
  f.checksum = (md5 f.data).take 4

/-- The serialized frame for payload `P`: `encode(P)`. -/
def frameBytes (P : List Nat) : List Nat :=
  (MessageFrame.create P).to_bytes

theorem frameBytes_eq (P : List Nat) :
    frameBytes P = pack_u32_be P.length ++ ((md5 P).take 4 ++ P) := by
  simp [frameBytes, MessageFrame.create, MessageFrame.to_bytes]

theorem frameBytes_length (P : List Nat) :
    (frameBytes P).length = 8 + P.length := by
  simp [frameBytes_eq, pack_u32_be, md5_length]
  omega

/-! ### Receive-buffer parser

The `while len(recv_buffer) >= 8` loop of `ROVNetworkClient._process_messages`
(rov_network.py:256-284); `SurfaceNetworkServer._handle_connection`
(surface_network.py:268-296) contains the byte-for-byte identical loop.
`process_messages buf` returns the list of payloads handed to
`_handle_message` in dispatch order, the number of frames discarded for a
checksum mismatch, and the remaining buffer.  The `struct.error` branch is
unreachable: with at least 8 bytes buffered, unpacking 8 bytes cannot fail. -/

def process_messages (buf : List Nat) : List (List Nat) × Nat × List Nat :=
  if h : 8 ≤ buf.length then
    if buf.length < 8 + be_u32 (buf.take 4) then
      ([], 0, buf)
    else
      let r := process_messages (buf.drop (8 + be_u32 (buf.take 4)))
      if (buf.drop 4).take 4 = (md5 ((buf.drop 8).take (be_u32 (buf.take 4)))).take 4 then
        ((buf.drop 8).take (be_u32 (buf.take 4)) :: r.1, r.2.1, r.2.2)
      else
        (r.1, r.2.1 + 1, r.2.2)
  else ([], 0, buf)
termination_by buf.length
decreasing_by simp [List.length_drop]; omega

theorem process_messages_short (buf : List Nat) (h : buf.length < 8) :
    process_messages buf = ([], 0, buf) := by
  rw [process_messages]
  simp [Nat.not_le.mpr h]

theorem process_messages_wait (buf : List Nat) (h8 : 8 ≤ buf.length)
    (hlt : buf.length < 8 + be_u32 (buf.take 4)) :
    process_messages buf = ([], 0, buf) := by
  rw [process_messages]
  simp [h8, hlt]

theorem take_append_of_length (A rest : List Nat) (hA : A.length = 4) :
    (A ++ rest).take 4 = A := by
  rw [← hA, List.take_left]

theorem drop_append_of_length (A rest : List Nat) (hA : A.length = 4) :
    (A ++ rest).drop 4 = rest := by
  rw [← hA, List.drop_left]

theorem frame_take_header (P : List Nat) :
    (frameBytes P).take 4 = pack_u32_be P.length := by
  rw [frameBytes_eq]
  exact take_append_of_length _ _ (length_pack_u32_be _)

theorem frame_take_checksum (P : List Nat) :
    ((frameBytes P).drop 4).take 4 = (md5 P).take 4 := by
  rw [frameBytes_eq, drop_append_of_length _ _ (length_pack_u32_be _)]
  apply take_append_of_length
  simp [md5_length]

theorem frame_drop_8 (P : List Nat) : (frameBytes P).drop 8 = P := by
  rw [frameBytes_eq, ← List.append_assoc]
  have h8 : (pack_u32_be P.length ++ (md5 P).take 4).length = 8 := by
    simp [pack_u32_be, md5_length]
  rw [← h8, List.drop_left]

/-- A complete, well-formed frame parses to exactly its payload, with no
    corruption reported and an empty remaining buffer. -/
theorem process_messages_frame (P : List Nat) (hP : P.length < 4294967296) :
    process_messages (frameBytes P) = ([P], 0, []) := by
  have hlen := frameBytes_length P
  have hbe : be_u32 ((frameBytes P).take 4) = P.length := by
    rw [frame_take_header, be_u32_pack_u32_be _ hP]
  have hdrop : (frameBytes P).drop (8 + P.length) = [] := by
    rw [← hlen]
    exact List.drop_length _
  rw [process_messages, dif_pos (by omega : 8 ≤ (frameBytes P).length)]
  simp only [hbe, hlen, frame_take_checksum, frame_drop_8, List.take_length, hdrop]
  rw [if_neg (by omega), process_messages_short [] (by simp)]
  simp

/-- Every strict prefix of a well-formed frame makes the parser wait for
    more data: no payload dispatched, no corruption reported, and the
    buffer is left untouched. -/
theorem process_messages_strict_pre (P : List Nat) (hP : P.length < 4294967296)
    (k : Nat) (hk : k < (frameBytes P).length) :
    process_messages ((frameBytes P).take k) = ([], 0, (frameBytes P).take k) := by
  have hlen := frameBytes_length P
  have hklen : ((frameBytes P).take k).length = k := by
    simp [List.length_take]
    omega
  by_cases h8 : k < 8
  · exact process_messages_short _ (by omega)
  · apply process_messages_wait _ (by omega)
    have htk : ((frameBytes P).take k).take 4 = (frameBytes P).take 4 := by
      rw [List.take_take]
      congr 1
      omega
    rw [htk, frame_take_header, be_u32_pack_u32_be _ hP]
    omega

/-- When a fully buffered frame fails its checksum, the parser discards
    exactly `8 + length` bytes, counts one corrupt frame, and resumes
    from the remaining buffer; the dispatched payloads are exactly those
    recovered from the remaining buffer. -/
theorem process_messages_corrupt (buf : List Nat)
    (h8 : 8 + be_u32 (buf.take 4) ≤ buf.length)
    (hbad : (buf.drop 4).take 4 ≠
      (md5 ((buf.drop 8).take (be_u32 (buf.take 4)))).take 4) :
    process_messages buf =
      ((process_messages (buf.drop (8 + be_u32 (buf.take 4)))).1,
       (process_messages (buf.drop (8 + be_u32 (buf.take 4)))).2.1 + 1,
       (process_messages (buf.drop (8 + be_u32 (buf.take 4)))).2.2) := by
  rw [process_messages, dif_pos (by omega : 8 ≤ buf.length)]
  rw [if_neg (by omega : ¬ buf.length < 8 + be_u32 (buf.take 4))]
  simp only [if_neg hbad]

/-! ### Chunked delivery

TCP delivers `encode(P)` in arbitrary chunks; each receive pass appends
the chunk to the buffer and runs the frame loop
(rov_network.py:248-256, surface_network.py:260-268). -/

/-- One receive pass: append the chunk, then drain the buffer. -/
def feedStep (st : List (List Nat) × Nat × List Nat) (chunk : List Nat) :
    List (List Nat) × Nat × List Nat :=
  let r := process_messages (st.2.2 ++ chunk)
  (st.1 ++ r.1, st.2.1 + r.2.1, r.2.2)

/-- Feed a sequence of chunks through the receive loop, starting from an
    empty buffer; accumulates dispatched payloads and corruption count. -/
def feedChunks (cs : List (List Nat)) : List (List Nat) × Nat × List Nat :=
  cs.foldl feedStep ([], 0, [])

theorem feed_nil_chunks (cs : List (List Nat)) :
    (∀ c ∈ cs, c = []) → ∀ (msgs : List (List Nat)) (cnt : Nat),
    cs.foldl feedStep (msgs, cnt, []) = (msgs, cnt, []) := by
  induction cs with
  | nil => intro _ msgs cnt; rfl
  | cons c rest ih =>
    intro hcs msgs cnt
    have hc : c = [] := hcs c (by simp)
    subst hc
    rw [List.foldl_cons]
    have hstep : feedStep (msgs, cnt, []) [] = (msgs, cnt, []) := by
      simp [feedStep, process_messages_short [] (by simp)]
    rw [hstep]
    exact ih (fun c hc => hcs c (by simp [hc])) msgs cnt

theorem feed_aux (P : List Nat) (hP : P.length < 4294967296) :
    ∀ (cs : List (List Nat)) (b : List Nat) (msgs : List (List Nat)) (cnt : Nat),
      b.length < (frameBytes P).length →
      b ++ cs.flatten = frameBytes P →
      cs.foldl feedStep (msgs, cnt, b) = (msgs ++ [P], cnt, []) := by
  intro cs
  induction cs with
  | nil =>
    intro b msgs cnt hlt hjoin
    exfalso
    simp only [List.flatten_nil, List.append_nil] at hjoin
    rw [hjoin] at hlt
    omega
  | cons c rest ih =>
    intro b msgs cnt hlt hjoin
    rw [List.foldl_cons]
    have hb' : (b ++ c) ++ rest.flatten = frameBytes P := by
      rw [List.append_assoc]
      simpa using hjoin
    have hb'pre : b ++ c = (frameBytes P).take (b ++ c).length := by
      rw [← hb', List.take_left]
    by_cases hfull : (b ++ c).length = (frameBytes P).length
    · have hbc : b ++ c = frameBytes P := by
        rw [hb'pre, hfull, List.take_length]
      have hrest : ∀ x ∈ rest.flatten, False := by
        intro x hx
        have hlenF := congrArg List.length hb'
        rw [hbc] at hlenF
        simp only [List.length_append] at hlenF
        have : rest.flatten.length = 0 := by omega
        rw [List.length_eq_zero] at this
        simp [this] at hx
      have hjn : rest.flatten = [] := List.eq_nil_iff_forall_not_mem.mpr hrest
      have hstep : feedStep (msgs, cnt, b) c = (msgs ++ [P], cnt, []) := by
        simp [feedStep, hbc, process_messages_frame P hP]
      rw [hstep]
      exact feed_nil_chunks rest (fun x hx => by
        rcases List.flatten_eq_nil_iff.mp hjn x hx with h
        exact h) (msgs ++ [P]) cnt
    · have hle : (b ++ c).length ≤ (frameBytes P).length := by
        rw [← hb']
        simp
      have hlt' : (b ++ c).length < (frameBytes P).length := by omega
      have hproc := process_messages_strict_pre P hP (b ++ c).length hlt'
      rw [← hb'pre] at hproc
      have hstep : feedStep (msgs, cnt, b) c = (msgs, cnt, b ++ c) := by
        simp [feedStep, hproc]
      rw [hstep]
      exact ih (b ++ c) msgs cnt hlt' hb'

theorem feedChunks_encode (P : List Nat) (hP : P.length < 4294967296)
    (cs : List (List Nat)) (hcs : cs.flatten = frameBytes P) :
    feedChunks cs = ([P], 0, []) := by
  have h0 : ([] : List Nat).length < (frameBytes P).length := by
    rw [frameBytes_length]
    simp
  have h := feed_aux P hP cs [] [] 0 h0 (by simpa using hcs)
  simpa [feedChunks] using h

/-! ### Claims C1, C2, C3 -/

/-- C1: for every payload byte string P (within the u32 length field),
    building a frame from P, serializing it, and decoding the resulting
    bytes through the receive-buffer parser yields back exactly P, and the
    checksum of the encoded frame validates as true: the 4 checksum bytes
    equal the first 4 bytes of the MD5 digest of P. -/
theorem c1_frame_round_trip (P : List Nat) (hP : P.length < 4294967296) :
    process_messages (frameBytes P) = ([P], 0, []) ∧
    (MessageFrame.create P).validate = true ∧
    ((frameBytes P).drop 4).take 4 = (md5 P).take 4 := by
  refine ⟨process_messages_frame P hP, ?_, frame_take_checksum P⟩
  simp [MessageFrame.validate, MessageFrame.create]

theorem c1_frame_round_trip_witness :
    ([3, 1, 4] : List Nat).length < 4294967296 ∧
    (process_messages (frameBytes [3, 1, 4]) = ([[3, 1, 4]], 0, []) ∧
     (MessageFrame.create [3, 1, 4]).validate = true ∧
     ((frameBytes [3, 1, 4]).drop 4).take 4 = (md5 [3, 1, 4]).take 4) :=
  ⟨by decide, c1_frame_round_trip [3, 1, 4] (by decide)⟩

/-- C2: splitting `encode(P)` into successive chunks fed one at a time
    through the receive loop yields exactly one decoded frame equal to P
    with no corruption ever reported; and on every proper prefix of the
    frame (fewer than 8 bytes, or fewer than `8 + length` bytes) the parser
    waits for more data, consuming nothing and reporting no corruption. -/
theorem c2_chunked_delivery (P : List Nat) (hP : P.length < 4294967296) :
    (∀ cs : List (List Nat), cs.flatten = frameBytes P →
      feedChunks cs = ([P], 0, [])) ∧
    (∀ k : Nat, k < (frameBytes P).length →
      process_messages ((frameBytes P).take k) = ([], 0, (frameBytes P).take k)) :=
  ⟨fun cs hcs => feedChunks_encode P hP cs hcs,
   fun k hk => process_messages_strict_pre P hP k hk⟩

theorem c2_chunked_delivery_witness :
    ([7] : List Nat).length < 4294967296 ∧
    feedChunks [frameBytes [7]] = ([[7]], 0, []) ∧
    process_messages ((frameBytes [7]).take 5) = ([], 0, (frameBytes [7]).take 5) :=
  ⟨by decide,
   (c2_chunked_delivery [7] (by decide)).1 [frameBytes [7]] (by simp),
   (c2_chunked_delivery [7] (by decide)).2 5 (by rw [frameBytes_length]; omega)⟩

/-- C3: a fully buffered frame whose 4 checksum bytes differ from the
    first 4 bytes of the MD5 digest of its payload slice causes the parser
    to drop exactly `8 + length` bytes and resume from there: the remaining
    buffer and the dispatched payloads are exactly those of parsing
    `buf[8+length:]`, so the corrupt payload is never handed to the message
    handler, and one corrupt frame is counted. -/
theorem c3_corrupt_frame_drop (buf : List Nat)
    (h8 : 8 + be_u32 (buf.take 4) ≤ buf.length)
    (hbad : (buf.drop 4).take 4 ≠
      (md5 ((buf.drop 8).take (be_u32 (buf.take 4)))).take 4) :
    (process_messages buf).1 =
      (process_messages (buf.drop (8 + be_u32 (buf.take 4)))).1 ∧
    (process_messages buf).2.2 =
      (process_messages (buf.drop (8 + be_u32 (buf.take 4)))).2.2 ∧
    (process_messages buf).2.1 =
      (process_messages (buf.drop (8 + be_u32 (buf.take 4)))).2.1 + 1 := by
  rw [process_messages_corrupt buf h8 hbad]
  exact ⟨rfl, rfl, rfl⟩

theorem c3_corrupt_frame_drop_witness :
    8 + be_u32 (([0, 0, 0, 1, 0, 0, 0, 0, 42] : List Nat).take 4) ≤
      ([0, 0, 0, 1, 0, 0, 0, 0, 42] : List Nat).length ∧
    (([0, 0, 0, 1, 0, 0, 0, 0, 42] : List Nat).drop 4).take 4 ≠
      (md5 ((([0, 0, 0, 1, 0, 0, 0, 0, 42] : List Nat).drop 8).take
        (be_u32 (([0, 0, 0, 1, 0, 0, 0, 0, 42] : List Nat).take 4)))).take 4 ∧
    ((process_messages [0, 0, 0, 1, 0, 0, 0, 0, 42]).1 =
      (process_messages (([0, 0, 0, 1, 0, 0, 0, 0, 42] : List Nat).drop
        (8 + be_u32 (([0, 0, 0, 1, 0, 0, 0, 0, 42] : List Nat).take 4)))).1 ∧
     (process_messages [0, 0, 0, 1, 0, 0, 0, 0, 42]).2.2 =
      (process_messages (([0, 0, 0, 1, 0, 0, 0, 0, 42] : List Nat).drop
        (8 + be_u32 (([0, 0, 0, 1, 0, 0, 0, 0, 42] : List Nat).take 4)))).2.2 ∧
     (process_messages [0, 0, 0, 1, 0, 0, 0, 0, 42]).2.1 =
      (process_messages (([0, 0, 0, 1, 0, 0, 0, 0, 42] : List Nat).drop
        (8 + be_u32 (([0, 0, 0, 1, 0, 0, 0, 0, 42] : List Nat).take 4)))).2.1 + 1) :=
  ⟨by decide, by decide,
   c3_corrupt_frame_drop [0, 0, 0, 1, 0, 0, 0, 0, 42] (by decide) (by decide)⟩

/-! ### Vehicle link connection state machine (rov_network.py:33-37, 63-242)

Callbacks are modelled as traces: `connEvents` records every argument
passed to `on_connection_change` (rov_network.py:208-209, 230-231), guarded
by the registered-callback flag exactly as the code guards with
`if self.on_connection_change:`.  `handled` records every payload passed
to `_handle_message`. -/

/-- `ConnectionState` (rov_network.py:33-37). -/
inductive ConnectionState where
  | DISCONNECTED
  | CONNECTING
  | CONNECTED
  | RECONNECTING
deriving DecidableEq, Repr

/-- The mutable fields of `ROVNetworkClient` the state machine touches. -/
structure ClientState where
  state : ConnectionState
  socketOpen : Bool
  reconnect_attempts : Nat
  last_heartbeat : Nat
  recv_buffer : List Nat
  hasConnCallback : Bool
  connEvents : List Bool
  handled : List (List Nat)
deriving DecidableEq, Repr

/-- `max_reconnect_attempts` (rov_network.py:77). -/
def max_reconnect_attempts : Nat := 10

/-- `heartbeat_interval` in seconds (rov_network.py:75). -/
def heartbeat_interval : Nat := 1

/-- `ROVNetworkClient._disconnect` (rov_network.py:218-231): close the
    socket, go to DISCONNECTED, clear the receive buffer, and invoke the
    connection-change callback with False when one is registered. -/
def client_disconnect (st : ClientState) : ClientState :=
  { st with
    socketOpen := false
    state := ConnectionState.DISCONNECTED
    recv_buffer := []
    connEvents := if st.hasConnCallback then st.connEvents ++ [false] else st.connEvents }

/-- `ROVNetworkClient._handle_connection_error` (rov_network.py:233-242):
    run `_disconnect`, bump the failure counter, then go to RECONNECTING,
    or to DISCONNECTED once the counter has reached the maximum. -/
def handle_connection_error (st : ClientState) : ClientState :=
  let st1 := client_disconnect st
  let st2 := { st1 with reconnect_attempts := st1.reconnect_attempts + 1 }
  if max_reconnect_attempts ≤ st2.reconnect_attempts then
    { st2 with state := ConnectionState.DISCONNECTED }
  else
    { st2 with state := ConnectionState.RECONNECTING }

/-- `ROVNetworkClient._connect` (rov_network.py:191-216).  `success` is the
    outcome of the TCP connect; `now` the wall clock.  On success the state
    becomes CONNECTED, the failure counter resets to 0, and the callback is
    invoked with True; any exception goes to `_handle_connection_error`. -/
def client_connect (success : Bool) (now : Nat) (st : ClientState) : ClientState :=
  let st1 := { st with state := ConnectionState.CONNECTING, socketOpen := true }
  if success then
    { st1 with
      state := ConnectionState.CONNECTED
      reconnect_attempts := 0
      last_heartbeat := now
      connEvents := if st1.hasConnCallback then st1.connEvents ++ [true] else st1.connEvents }
  else
    handle_connection_error st1

/-- One pass of `ROVNetworkClient._heartbeat_loop` (rov_network.py:180-189):
    if CONNECTED and more than 3x the heartbeat interval passed since the
    last received byte, run the same error-handling path as a socket
    fault. -/
def heartbeat_check (now : Nat) (st : ClientState) : ClientState :=
  if st.state = ConnectionState.CONNECTED ∧
      heartbeat_interval * 3 < now - st.last_heartbeat then
    handle_connection_error st
  else st

/-- What the socket receive of one `_process_messages` pass produced
    (rov_network.py:246-290). -/
inductive RecvEvent where
  | bytesReceived (data : List Nat)
  | connClosed
  | sockTimeout
  | sockFault
deriving DecidableEq, Repr

/-- `ROVNetworkClient._process_messages` (rov_network.py:244-290) as one
    receive pass: empty recv raises ConnectionError, socket timeouts are
    absorbed, other socket faults re-raise; received bytes update
    `last_heartbeat`, extend the buffer, and run the frame loop. -/
def process_messages_pass (ev : RecvEvent) (now : Nat) (st : ClientState) :
    Except Unit ClientState :=
  match ev with
  | RecvEvent.sockTimeout => Except.ok st
  | RecvEvent.connClosed => Except.error ()
  | RecvEvent.sockFault => Except.error ()
  | RecvEvent.bytesReceived data =>
    if data = [] then Except.error ()
    else
      let r := process_messages (st.recv_buffer ++ data)
      Except.ok { st with
        last_heartbeat := now
        recv_buffer := r.2.2
        handled := st.handled ++ r.1 }

/-- The CONNECTED branch of one `_network_loop` iteration
    (rov_network.py:162-178): any exception escaping the receive pass is
    caught and routed to `_handle_connection_error`. -/
def network_loop_pass (ev : RecvEvent) (now : Nat) (st : ClientState) : ClientState :=
  match process_messages_pass ev now st with
  | Except.ok st1 => st1
  | Except.error _ => handle_connection_error st

theorem client_connect_false (now : Nat) (st : ClientState) :
    client_connect false now st =
      handle_connection_error
        { st with state := ConnectionState.CONNECTING, socketOpen := true } := rfl

/-! ### Claims C4, C5, C10 -/

/-- C4: from DISCONNECTED, a failed connect attempt never leaves the state
    machine CONNECTED; one successful connect attempt moves it to CONNECTED
    and resets the reconnect failure counter to 0. -/
theorem c4_connect_state_machine (st : ClientState) (now : Nat)
    (h : st.state = ConnectionState.DISCONNECTED) :
    (client_connect false now st).state ≠ ConnectionState.CONNECTED ∧
    (client_connect true now st).state = ConnectionState.CONNECTED ∧
    (client_connect true now st).reconnect_attempts = 0 := by
  refine ⟨?_, rfl, rfl⟩
  rw [client_connect_false]
  simp only [handle_connection_error, client_disconnect]
  split <;> simp

theorem c4_connect_state_machine_witness :
    ({ state := ConnectionState.DISCONNECTED, socketOpen := false,
       reconnect_attempts := 0, last_heartbeat := 0, recv_buffer := [],
       hasConnCallback := true, connEvents := [], handled := [] } :
      ClientState).state = ConnectionState.DISCONNECTED ∧
    ((client_connect false 5
        { state := ConnectionState.DISCONNECTED, socketOpen := false,
          reconnect_attempts := 0, last_heartbeat := 0, recv_buffer := [],
          hasConnCallback := true, connEvents := [], handled := [] }).state ≠
      ConnectionState.CONNECTED ∧
     (client_connect true 5
        { state := ConnectionState.DISCONNECTED, socketOpen := false,
          reconnect_attempts := 0, last_heartbeat := 0, recv_buffer := [],
          hasConnCallback := true, connEvents := [], handled := [] }).state =
      ConnectionState.CONNECTED ∧
     (client_connect true 5
        { state := ConnectionState.DISCONNECTED, socketOpen := false,
          reconnect_attempts := 0, last_heartbeat := 0, recv_buffer := [],
          hasConnCallback := true, connEvents := [], handled := [] }).reconnect_attempts = 0) :=
  ⟨rfl, c4_connect_state_machine _ 5 rfl⟩

/-- A CONNECTED client with 9 accumulated reconnect failures and a stale
    heartbeat clock: the tenth failure is about to reach the maximum. -/
def staleClient9 : ClientState :=
  { state := ConnectionState.CONNECTED, socketOpen := true,
    reconnect_attempts := 9, last_heartbeat := 0, recv_buffer := [1, 2],
    hasConnCallback := true, connEvents := [true], handled := [] }

/-- C5 counterexample: a liveness-loop run of the error-handling path
    (heartbeat 10s stale, so the 3x-interval bound is exceeded) does NOT
    leave the state machine in RECONNECTING when the incremented failure
    counter reaches the maximum of 10 — it leaves it DISCONNECTED. -/
theorem c5_reconnecting_counterexample :
    heartbeat_check 10 staleClient9 = handle_connection_error staleClient9 ∧
    (handle_connection_error staleClient9).state ≠ ConnectionState.RECONNECTING ∧
    (handle_connection_error staleClient9).state = ConnectionState.DISCONNECTED := by
  refine ⟨?_, by decide, by decide⟩
  rw [heartbeat_check, if_pos]
  exact ⟨rfl, by decide⟩

/-- C5 amended: every run of the error-handling path — the liveness loop
    triggers exactly this path when CONNECTED and more than 3x the
    heartbeat interval passed since the last received byte — tears down the
    socket, clears the receive buffer, invokes the disconnect callback, and
    leaves the state machine in RECONNECTING, except that when the
    incremented failure counter has reached the maximum of 10 it leaves it
    in DISCONNECTED. -/
theorem c5_error_path_amended (st : ClientState)
    (hcb : st.hasConnCallback = true) :
    (handle_connection_error st).socketOpen = false ∧
    (handle_connection_error st).recv_buffer = [] ∧
    (handle_connection_error st).connEvents = st.connEvents ++ [false] ∧
    (handle_connection_error st).state =
      (if max_reconnect_attempts ≤ st.reconnect_attempts + 1 then
        ConnectionState.DISCONNECTED else ConnectionState.RECONNECTING) ∧
    (∀ now : Nat, st.state = ConnectionState.CONNECTED →
      heartbeat_interval * 3 < now - st.last_heartbeat →
      heartbeat_check now st = handle_connection_error st) := by
  refine ⟨?_, ?_, ?_, ?_, ?_⟩
  · simp only [handle_connection_error, client_disconnect]
    split <;> rfl
  · simp only [handle_connection_error, client_disconnect]
    split <;> rfl
  · simp only [handle_connection_error, client_disconnect, hcb, if_true]
    split <;> rfl
  · simp only [handle_connection_error, client_disconnect]
    split <;> rfl
  · intro now hc hstale
    rw [heartbeat_check, if_pos]
    exact ⟨hc, hstale⟩

theorem c5_error_path_amended_witness :
    staleClient9.hasConnCallback = true ∧
    ((handle_connection_error staleClient9).socketOpen = false ∧
     (handle_connection_error staleClient9).recv_buffer = [] ∧
     (handle_connection_error staleClient9).connEvents = staleClient9.connEvents ++ [false] ∧
     (handle_connection_error staleClient9).state =
       (if max_reconnect_attempts ≤ staleClient9.reconnect_attempts + 1 then
         ConnectionState.DISCONNECTED else ConnectionState.RECONNECTING) ∧
     (∀ now : Nat, staleClient9.state = ConnectionState.CONNECTED →
       heartbeat_interval * 3 < now - staleClient9.last_heartbeat →
       heartbeat_check now staleClient9 = handle_connection_error staleClient9)) :=
  ⟨rfl, c5_error_path_amended staleClient9 rfl⟩

/-- C10: a failed connect attempt from DISCONNECTED invokes the
    connection-change callback with False even though the attempt never
    reached CONNECTED and no True notification was emitted — and every run
    of the error-handling path appends exactly one False notification. -/
theorem c10_disconnect_callback_on_failed_connect (st : ClientState) (now : Nat)
    (h : st.state = ConnectionState.DISCONNECTED)
    (hcb : st.hasConnCallback = true) :
    (client_connect false now st).connEvents = st.connEvents ++ [false] ∧
    (client_connect false now st).state ≠ ConnectionState.CONNECTED ∧
    (∀ st2 : ClientState, st2.hasConnCallback = true →
      (handle_connection_error st2).connEvents = st2.connEvents ++ [false]) := by
  refine ⟨?_, ?_, ?_⟩
  · rw [client_connect_false]
    simp only [handle_connection_error, client_disconnect]
    split <;> simp [hcb]
  · rw [client_connect_false]
    simp only [handle_connection_error, client_disconnect]
    split <;> simp
  · intro st2 hcb2
    simp only [handle_connection_error, client_disconnect, hcb2, if_true]
    split <;> rfl

theorem c10_disconnect_callback_witness :
    ({ state := ConnectionState.DISCONNECTED, socketOpen := false,
       reconnect_attempts := 0, last_heartbeat := 0, recv_buffer := [],
       hasConnCallback := true, connEvents := [], handled := [] } :
      ClientState).state = ConnectionState.DISCONNECTED ∧
    ({ state := ConnectionState.DISCONNECTED, socketOpen := false,
       reconnect_attempts := 0, last_heartbeat := 0, recv_buffer := [],
       hasConnCallback := true, connEvents := [], handled := [] } :
      ClientState).hasConnCallback = true ∧
    ((client_connect false 3
        { state := ConnectionState.DISCONNECTED, socketOpen := false,
          reconnect_attempts := 0, last_heartbeat := 0, recv_buffer := [],
          hasConnCallback := true, connEvents := [], handled := [] }).connEvents =
      ({ state := ConnectionState.DISCONNECTED, socketOpen := false,
          reconnect_attempts := 0, last_heartbeat := 0, recv_buffer := [],
          hasConnCallback := true, connEvents := [], handled := [] } :
        ClientState).connEvents ++ [false] ∧
     (client_connect false 3
        { state := ConnectionState.DISCONNECTED, socketOpen := false,
          reconnect_attempts := 0, last_heartbeat := 0, recv_buffer := [],
          hasConnCallback := true, connEvents := [], handled := [] }).state ≠
      ConnectionState.CONNECTED ∧
     (∀ st2 : ClientState, st2.hasConnCallback = true →
       (handle_connection_error st2).connEvents = st2.connEvents ++ [false])) :=
  ⟨rfl, rfl, c10_disconnect_callback_on_failed_connect _ 3 rfl rfl⟩

/-! ### Shore server connection registry (surface_network.py:33-48, 51-74)

The registry `self.connections` is a dict keyed by the `"ip:port"` string;
modelled as an association list with unique keys.  `connEvents` records
every `(connected?, conn_id)` passed to `on_connection_change`
(surface_network.py:245-246, 373-374). -/

/-- Server-side `ConnectionState` (surface_network.py:33-37). -/
inductive SurfaceConnState where
  | DISCONNECTED
  | CONNECTED
  | ERROR
deriving DecidableEq, Repr

/-- `ROVConnection` (surface_network.py:39-48): per-accepted-socket record. -/
structure ROVConnection where
  address : String
  connState : SurfaceConnState
  last_heartbeat : Nat
  recv_buffer : List Nat
deriving DecidableEq, Repr

/-- The mutable fields of `SurfaceNetworkServer`. -/
structure ServerState where
  running : Bool
  serverSocketOpen : Bool
  serverThreadStarted : Bool
  cleanupThreadStarted : Bool
  connections : List (String × ROVConnection)
  connEvents : List (Bool × String)
  hasConnCallback : Bool
deriving DecidableEq, Repr

/-- `heartbeat_timeout` in seconds (surface_network.py:63). -/
def heartbeat_timeout : Nat := 5

/-- Dict membership + indexing, `conn_id in self.connections` /
    `self.connections[conn_id]`. -/
def lookupConn (id : String) : List (String × ROVConnection) → Option ROVConnection
  | [] => none
  | p :: rest => if p.1 = id then some p.2 else lookupConn id rest

/-- `del self.connections[conn_id]`: remove the (unique) binding of `id`. -/
def removeKey (id : String) : List (String × ROVConnection) → List (String × ROVConnection)
  | [] => []
  | p :: rest => if p.1 = id then rest else p :: removeKey id rest

/-- Occurrences of one callback invocation in an event trace. -/
def countEvent (e : Bool × String) : List (Bool × String) → Nat
  | [] => 0
  | x :: rest => (if x = e then 1 else 0) + countEvent e rest

/-- `SurfaceNetworkServer._close_connection` (surface_network.py:357-374):
    if the id is registered, close its socket, delete it from the registry,
    and invoke the connection-change callback with `(False, conn_id)`. -/
def close_connection (id : String) (s : ServerState) : ServerState :=
  match lookupConn id s.connections with
  | none => s
  | some _ =>
    { s with
      connections := removeKey id s.connections
      connEvents := if s.hasConnCallback then s.connEvents ++ [(false, id)] else s.connEvents }

/-- The stale-connection scan of one `_cleanup_loop` iteration
    (surface_network.py:380-386): ids whose last-activity age exceeds the
    heartbeat timeout. -/
def stale_ids (now : Nat) (s : ServerState) : List String :=
  (s.connections.filter
    (fun p => decide (heartbeat_timeout < now - p.2.last_heartbeat))).map Prod.fst

/-- One `_cleanup_loop` iteration (surface_network.py:376-393): collect the
    stale ids under the lock, then close each. -/
def cleanup_sweep (now : Nat) (s : ServerState) : ServerState :=
  (stale_ids now s).foldl (fun acc i => close_connection i acc) s

/-- The receive step of `_handle_connection` (surface_network.py:260-296):
    any nonempty received byte string first refreshes `last_heartbeat`,
    then extends the buffer and runs the frame loop.  Returns the updated
    connection, the dispatched payloads, and the corrupt-frame count. -/
def handle_connection_recv (now : Nat) (data : List Nat) (c : ROVConnection) :
    ROVConnection × List (List Nat) × Nat :=
  if data = [] then (c, [], 0)
  else
    let r := process_messages (c.recv_buffer ++ data)
    ({ c with last_heartbeat := now, recv_buffer := r.2.2 }, r.1, r.2.1)

/-! Association-list helper lemmas. -/

theorem countEvent_append (e : Bool × String) (l1 l2 : List (Bool × String)) :
    countEvent e (l1 ++ l2) = countEvent e l1 + countEvent e l2 := by
  induction l1 with
  | nil => simp [countEvent]
  | cons x rest ih => simp [countEvent, ih]; omega

theorem lookupConn_isSome_of_mem (id : String) (c : ROVConnection)
    (l : List (String × ROVConnection)) (h : (id, c) ∈ l) :
    (lookupConn id l).isSome := by
  induction l with
  | nil => simp at h
  | cons p rest ih =>
    obtain ⟨k, v⟩ := p
    rcases List.mem_cons.mp h with h1 | h2
    · obtain ⟨rfl, rfl⟩ := Prod.mk.injEq .. ▸ h1
      simp [lookupConn]
    · by_cases hk : k = id
      · simp [lookupConn, hk]
      · simp [lookupConn, hk]
        exact ih h2

theorem lookupConn_removeKey_ne (id idq : String) (l : List (String × ROVConnection))
    (h : id ≠ idq) :
    lookupConn id (removeKey idq l) = lookupConn id l := by
  induction l with
  | nil => rfl
  | cons p rest ih =>
    obtain ⟨k, v⟩ := p
    by_cases hk : k = idq
    · subst hk
      simp [removeKey, lookupConn, Ne.symm h]
    · simp only [removeKey, if_neg hk]
      by_cases hki : k = id
      · simp [lookupConn, hki]
      · simp [lookupConn, hki, ih]

theorem lookupConn_eq_none_of_not_mem (id : String) (l : List (String × ROVConnection))
    (h : ¬ id ∈ l.map Prod.fst) : lookupConn id l = none := by
  induction l with
  | nil => rfl
  | cons p rest ih =>
    simp only [List.map_cons, List.mem_cons] at h
    push_neg at h
    simp [lookupConn, Ne.symm h.1, ih h.2]

theorem lookupConn_removeKey_self (id : String) (l : List (String × ROVConnection))
    (hnd : (l.map Prod.fst).Nodup) :
    lookupConn id (removeKey id l) = none := by
  induction l with
  | nil => rfl
  | cons p rest ih =>
    obtain ⟨k, v⟩ := p
    simp only [List.map_cons, List.nodup_cons] at hnd
    by_cases hk : k = id
    · subst hk
      simp only [removeKey, if_pos rfl]
      exact lookupConn_eq_none_of_not_mem k rest hnd.1
    · simp [removeKey, hk, lookupConn, ih hnd.2]

theorem removeKey_keys_sublist (id : String) (l : List (String × ROVConnection)) :
    ((removeKey id l).map Prod.fst).Sublist (l.map Prod.fst) := by
  induction l with
  | nil => simp [removeKey]
  | cons p rest ih =>
    by_cases hk : p.1 = id
    · simp only [removeKey, if_pos hk, List.map_cons]
      exact (List.sublist_cons_self _ _)
    · simp only [removeKey, if_neg hk, List.map_cons]
      exact ih.cons₂ p.1

/-! `_close_connection` step lemmas. -/

theorem close_hasCb (i : String) (s : ServerState) :
    (close_connection i s).hasConnCallback = s.hasConnCallback := by
  cases hl : lookupConn i s.connections <;> simp [close_connection, hl]

theorem close_keys_nodup (i : String) (s : ServerState)
    (h : (s.connections.map Prod.fst).Nodup) :
    ((close_connection i s).connections.map Prod.fst).Nodup := by
  cases hl : lookupConn i s.connections <;> simp [close_connection, hl]
  · exact h
  · exact (removeKey_keys_sublist i s.connections).nodup h

theorem close_lookup_ne (id i : String) (s : ServerState) (h : id ≠ i) :
    lookupConn id (close_connection i s).connections =
      lookupConn id s.connections := by
  cases hl : lookupConn i s.connections <;>
    simp [close_connection, hl, lookupConn_removeKey_ne id i s.connections h]

theorem close_count_ne (id i : String) (s : ServerState) (h : id ≠ i) :
    countEvent (false, id) (close_connection i s).connEvents =
      countEvent (false, id) s.connEvents := by
  cases hl : lookupConn i s.connections
  · simp [close_connection, hl]
  · simp only [close_connection, hl]
    by_cases hcb : s.hasConnCallback <;>
      simp [hcb, countEvent_append, countEvent, Prod.ext_iff, Ne.symm h]

theorem close_lookup_self (id : String) (s : ServerState)
    (hnd : (s.connections.map Prod.fst).Nodup) :
    lookupConn id (close_connection id s).connections = none := by
  cases hl : lookupConn id s.connections
  · simp [close_connection, hl]
  · simp [close_connection, hl, lookupConn_removeKey_self id s.connections hnd]

theorem close_count_self (id : String) (s : ServerState)
    (hcb : s.hasConnCallback = true)
    (hsome : (lookupConn id s.connections).isSome) :
    countEvent (false, id) (close_connection id s).connEvents =
      countEvent (false, id) s.connEvents + 1 := by
  cases hl : lookupConn id s.connections
  · rw [hl] at hsome
    simp at hsome
  · simp [close_connection, hl, hcb, countEvent_append, countEvent]

/-! Folding `_close_connection` over a list of ids. -/

theorem fold_close_not_mem (id : String) :
    ∀ (ids : List String) (s : ServerState), ¬ id ∈ ids →
      lookupConn id ((ids.foldl (fun a i => close_connection i a) s).connections) =
        lookupConn id s.connections ∧
      countEvent (false, id) ((ids.foldl (fun a i => close_connection i a) s).connEvents) =
        countEvent (false, id) s.connEvents := by
  intro ids
  induction ids with
  | nil => intro s _; exact ⟨rfl, rfl⟩
  | cons i rest ih =>
    intro s hmem
    simp only [List.mem_cons] at hmem
    push_neg at hmem
    rw [List.foldl_cons]
    have h1 := ih (close_connection i s) hmem.2
    refine ⟨?_, ?_⟩
    · rw [h1.1, close_lookup_ne id i s hmem.1]
    · rw [h1.2, close_count_ne id i s hmem.1]

theorem fold_close_mem (id : String) :
    ∀ (ids : List String) (s : ServerState), ids.Nodup →
      (s.connections.map Prod.fst).Nodup → s.hasConnCallback = true →
      id ∈ ids → (lookupConn id s.connections).isSome →
      lookupConn id ((ids.foldl (fun a i => close_connection i a) s).connections) = none ∧
      countEvent (false, id) ((ids.foldl (fun a i => close_connection i a) s).connEvents) =
        countEvent (false, id) s.connEvents + 1 := by
  intro ids
  induction ids with
  | nil =>
    intro s _ _ _ hmem _
    simp at hmem
  | cons i rest ih =>
    intro s hnd hknd hcb hmem hsome
    rw [List.foldl_cons]
    rcases List.mem_cons.mp hmem with rfl | hmem'
    · have hnotmem : ¬ id ∈ rest := (List.nodup_cons.mp hnd).1
      have h2 := fold_close_not_mem id rest (close_connection id s) hnotmem
      refine ⟨?_, ?_⟩
      · rw [h2.1, close_lookup_self id s hknd]
      · rw [h2.2, close_count_self id s hcb hsome]
    · have hne : id ≠ i := by
        rintro rfl
        exact (List.nodup_cons.mp hnd).1 hmem'
      have hih := ih (close_connection i s) (List.nodup_cons.mp hnd).2
        (close_keys_nodup i s hknd) (by rw [close_hasCb]; exact hcb) hmem'
        (by rw [close_lookup_ne id i s hne]; exact hsome)
      refine ⟨hih.1, ?_⟩
      rw [hih.2, close_count_ne id i s hne]

/-! ### Claim C6 -/

/-- C6: a registered connection whose last-activity timestamp is older
    than the heartbeat timeout is removed from the registry by the cleanup
    sweep with the disconnect callback invoked exactly once for it; and
    receiving any bytes on a connection resets that connection's
    last-activity timestamp, whether or not they decode to a heartbeat. -/
theorem c6_liveness_eviction (s : ServerState) (now : Nat) (id : String)
    (c : ROVConnection)
    (hknd : (s.connections.map Prod.fst).Nodup)
    (hmem : (id, c) ∈ s.connections)
    (hstale : heartbeat_timeout < now - c.last_heartbeat)
    (hcb : s.hasConnCallback = true) :
    lookupConn id (cleanup_sweep now s).connections = none ∧
    countEvent (false, id) (cleanup_sweep now s).connEvents =
      countEvent (false, id) s.connEvents + 1 ∧
    (∀ (t : Nat) (data : List Nat) (c2 : ROVConnection), data ≠ [] →
      (handle_connection_recv t data c2).1.last_heartbeat = t) := by
  have hfil : (id, c) ∈ s.connections.filter
      (fun p => decide (heartbeat_timeout < now - p.2.last_heartbeat)) := by
    rw [List.mem_filter]
    exact ⟨hmem, by simpa using hstale⟩
  have hid : id ∈ stale_ids now s := List.mem_map_of_mem Prod.fst hfil
  have hndstale : (stale_ids now s).Nodup := by
    have hsub : (stale_ids now s).Sublist (s.connections.map Prod.fst) :=
      (List.filter_sublist _).map Prod.fst
    exact hsub.nodup hknd
  have hsome : (lookupConn id s.connections).isSome :=
    lookupConn_isSome_of_mem id c _ hmem
  have h := fold_close_mem id (stale_ids now s) s hndstale hknd hcb hid hsome
  exact ⟨h.1, h.2, fun t data c2 hdata => by simp [handle_connection_recv, hdata]⟩

theorem c6_liveness_eviction_witness :
    (((⟨true, true, true, true,
        [("10.0.0.9:50000", ⟨"10.0.0.9:50000", SurfaceConnState.CONNECTED, 0, []⟩)],
        [], true⟩ : ServerState)).connections.map Prod.fst).Nodup ∧
    ("10.0.0.9:50000", (⟨"10.0.0.9:50000", SurfaceConnState.CONNECTED, 0, []⟩ : ROVConnection)) ∈
      (⟨true, true, true, true,
        [("10.0.0.9:50000", ⟨"10.0.0.9:50000", SurfaceConnState.CONNECTED, 0, []⟩)],
        [], true⟩ : ServerState).connections ∧
    heartbeat_timeout <
      20 - (⟨"10.0.0.9:50000", SurfaceConnState.CONNECTED, 0, []⟩ : ROVConnection).last_heartbeat ∧
    (⟨true, true, true, true,
        [("10.0.0.9:50000", ⟨"10.0.0.9:50000", SurfaceConnState.CONNECTED, 0, []⟩)],
        [], true⟩ : ServerState).hasConnCallback = true ∧
    (lookupConn "10.0.0.9:50000"
        (cleanup_sweep 20
          (⟨true, true, true, true,
            [("10.0.0.9:50000", ⟨"10.0.0.9:50000", SurfaceConnState.CONNECTED, 0, []⟩)],
            [], true⟩ : ServerState)).connections = none ∧
     countEvent (false, "10.0.0.9:50000")
        (cleanup_sweep 20
          (⟨true, true, true, true,
            [("10.0.0.9:50000", ⟨"10.0.0.9:50000", SurfaceConnState.CONNECTED, 0, []⟩)],
            [], true⟩ : ServerState)).connEvents =
       countEvent (false, "10.0.0.9:50000")
        (⟨true, true, true, true,
            [("10.0.0.9:50000", ⟨"10.0.0.9:50000", SurfaceConnState.CONNECTED, 0, []⟩)],
            [], true⟩ : ServerState).connEvents + 1 ∧
     (∀ (t : Nat) (data : List Nat) (c2 : ROVConnection), data ≠ [] →
       (handle_connection_recv t data c2).1.last_heartbeat = t)) :=
  ⟨by decide, by decide, by decide, by decide,
   c6_liveness_eviction _ 20 "10.0.0.9:50000"
     ⟨"10.0.0.9:50000", SurfaceConnState.CONNECTED, 0, []⟩
     (by decide) (by decide) (by decide) (by decide)⟩

/-! ### Claim C7: shutdown

`SurfaceNetworkServer.stop` (surface_network.py:113-137) takes
`connection_lock` (line 126) and, still holding it, calls
`_close_connection` (line 128), whose first statement re-acquires the very
same lock (line 359).  Python's `threading.Lock` is not reentrant: the
second acquire blocks forever.  A computation that blocks forever is
modelled as `none`. -/

/-- `_close_connection` as called with the registry lock state made
    explicit: re-acquiring the held non-reentrant lock never returns. -/
def close_connection_locked (registryLockHeld : Bool) (id : String)
    (s : ServerState) : Option ServerState :=
  if registryLockHeld then none
  else some (close_connection id s)

/-- `SurfaceNetworkServer.stop`: clear the running flag, close the
    listening socket, then — holding `connection_lock` — call
    `_close_connection` for every registered connection.  The bounded
    0.5s thread joins that follow are reached only if the close loop
    returns. -/
def server_stop (s : ServerState) : Option ServerState :=
  let s1 := { s with running := false, serverSocketOpen := false }
  (s1.connections.map Prod.fst).foldl
    (fun acc i => acc.bind (close_connection_locked true i)) (some s1)

/-- A server with exactly one registered connection at the time of the
    `stop()` call. -/
def oneConnServer : ServerState :=
  { running := true, serverSocketOpen := true, serverThreadStarted := true,
    cleanupThreadStarted := true,
    connections :=
      [("10.0.0.7:40000", ⟨"10.0.0.7:40000", SurfaceConnState.CONNECTED, 3, []⟩)],
    connEvents := [(true, "10.0.0.7:40000")], hasConnCallback := true }

/-- C7: stop() does NOT return when a connection is still registered —
    holding `connection_lock`, the per-connection close re-acquires the
    same non-reentrant lock and blocks forever (`none`); with an empty
    registry the close loop is never entered and stop() returns. -/
theorem c7_stop_deadlocks_with_connection :
    server_stop oneConnServer = none ∧
    (∀ s : ServerState, s.connections = [] →
      server_stop s = some { s with running := false, serverSocketOpen := false }) := by
  constructor
  · rfl
  · intro s hs
    simp [server_stop, hs]

theorem c7_stop_witness :
    (⟨false, false, false, false, [], [], true⟩ : ServerState).connections = [] ∧
    server_stop ⟨false, false, false, false, [], [], true⟩ =
      some { (⟨false, false, false, false, [], [], true⟩ : ServerState) with
        running := false, serverSocketOpen := false } :=
  ⟨rfl, c7_stop_deadlocks_with_connection.2 ⟨false, false, false, false, [], [], true⟩ rfl⟩

/-! ### Claim C8: lock discipline of broadcast send

Lock acquisition and blocking-send events of the broadcast path, replayed
against an exact-order trace.  `_send_to_connection`
(surface_network.py:343-355) performs the blocking `sendall` under the
connection's own lock; `send_control_message` (surface_network.py:139-163)
invokes it for every registered id while holding `connection_lock`
(`send_heartbeat_request`, surface_network.py:165-193, has the identical
shape). -/

inductive LockEvent where
  | acquireRegistry
  | releaseRegistry
  | acquireConn (id : String)
  | releaseConn (id : String)
  | blockingSendAll (id : String)
deriving DecidableEq, Repr

/-- Which locks are held at a point in a trace. -/
structure LockState where
  registryHeld : Bool
  connsHeld : List String
deriving DecidableEq, Repr

def lockStep (st : LockState) : LockEvent → LockState
  | LockEvent.acquireRegistry => { st with registryHeld := true }
  | LockEvent.releaseRegistry => { st with registryHeld := false }
  | LockEvent.acquireConn id => { st with connsHeld := id :: st.connsHeld }
  | LockEvent.releaseConn id => { st with connsHeld := st.connsHeld.erase id }
  | LockEvent.blockingSendAll _ => st

/-- A blocking send performed while both the registry lock and that
    connection's own lock are held. -/
def badSend (st : LockState) : LockEvent → Bool
  | LockEvent.blockingSendAll id => st.registryHeld && st.connsHeld.contains id
  | _ => false

/-- Does any blocking send in the trace happen while both locks are held? -/
def anyBadSend : LockState → List LockEvent → Bool
  | _, [] => false
  | st, e :: rest => badSend st e || anyBadSend (lockStep st e) rest

/-- `_send_to_connection`: acquire the connection lock, blocking sendall,
    release. -/
def send_to_connection_events (id : String) : List LockEvent :=
  [LockEvent.acquireConn id, LockEvent.blockingSendAll id, LockEvent.releaseConn id]

/-- `send_control_message`: acquire `connection_lock`, run
    `_send_to_connection` for every registered id, release. -/
def send_control_message_events (ids : List String) : List LockEvent :=
  LockEvent.acquireRegistry ::
    ((ids.map send_to_connection_events).flatten ++ [LockEvent.releaseRegistry])

/-- C8 counterexample: with one registered connection, the broadcast-send
    trace contains a blocking per-connection sendall performed while the
    registry lock and that connection's lock are BOTH held — the claimed
    discipline is violated at this concrete input. -/
theorem c8_lock_overlap_counterexample :
    anyBadSend ⟨false, []⟩ (send_control_message_events ["10.0.0.7:40000"]) = true := by
  rfl

/-- C8 amended: broadcast send holds the registry lock for the whole
    iteration, so every run with at least one registered connection
    performs a blocking per-connection sendall while both the registry
    lock and that connection's lock are held simultaneously. -/
theorem c8_lock_overlap_amended (id : String) (ids : List String) :
    anyBadSend ⟨false, []⟩ (send_control_message_events (id :: ids)) = true := by
  simp [send_control_message_events, send_to_connection_events, anyBadSend,
    badSend, lockStep, List.contains_cons]

/-! ### Claim C9: startup failure is fatal to the process -/

/-- `SurfaceNetworkServer.start` (surface_network.py:83-111).  `bindOk` is
    the outcome of socket creation/bind/listen; on failure the exception
    is caught, `start` returns False, and the object starts nothing:
    `running` stays false and no worker thread is started. -/
def server_start (bindOk : Bool) (s : ServerState) : Bool × ServerState :=
  if s.running then (true, s)
  else if bindOk then
    (true, { s with running := true, serverSocketOpen := true,
                    serverThreadStarted := true, cleanupThreadStarted := true })
  else (false, s)

/-- Outcome of a process entry point. -/
inductive ProcessOutcome where
  | exited (code : Nat)
  | running
deriving DecidableEq, Repr

/-- A freshly constructed server object. -/
def initialServer : ServerState :=
  { running := false, serverSocketOpen := false, serverThreadStarted := false,
    cleanupThreadStarted := false, connections := [], connEvents := [],
    hasConnCallback := true }

/-- The startup path of the shore-station entry point
    (surface_test.py:169-174): when `surface.start()` reports failure the
    process returns exit code 1. -/
def surface_station_main (bindOk : Bool) : ProcessOutcome :=
  if (server_start bindOk initialServer).1 then ProcessOutcome.running
  else ProcessOutcome.exited 1

/-- C9: a bind/listen failure on startup leaves no degraded mode — the
    server object is returned unchanged, not running, with no worker
    started — and the shore-station entry point then exits the process
    with code 1, while protocol-layer transport errors on the vehicle link
    are absorbed into the `_handle_connection_error` state transition
    rather than terminating anything. -/
theorem c9_bind_failure_fatal (s : ServerState) (hs : s.running = false) :
    server_start false s = (false, s) ∧
    surface_station_main false = ProcessOutcome.exited 1 ∧
    surface_station_main true = ProcessOutcome.running ∧
    (∀ (now : Nat) (st : ClientState),
      network_loop_pass RecvEvent.sockFault now st = handle_connection_error st) ∧
    (∀ (now : Nat) (st : ClientState),
      network_loop_pass RecvEvent.connClosed now st = handle_connection_error st) := by
  refine ⟨?_, rfl, rfl, fun now st => rfl, fun now st => rfl⟩
  simp [server_start, hs]

theorem c9_bind_failure_fatal_witness :
    initialServer.running = false ∧
    (server_start false initialServer = (false, initialServer) ∧
     surface_station_main false = ProcessOutcome.exited 1 ∧
     surface_station_main true = ProcessOutcome.running ∧
     (∀ (now : Nat) (st : ClientState),
       network_loop_pass RecvEvent.sockFault now st = handle_connection_error st) ∧
     (∀ (now : Nat) (st : ClientState),
       network_loop_pass RecvEvent.connClosed now st = handle_connection_error st)) :=
  ⟨rfl, c9_bind_failure_fatal initialServer rfl⟩

end RovProof
